import Mathlib

/-!
Shallow embedding of the fake-news-detection frontend engine
(`src/services/api.ts` and the history handling of the main app component).

Conventions of the embedding:
* JavaScript strings become Lean `String`s; `text.toLowerCase()` becomes a
  character-wise ASCII lowering (all string constants in the code are ASCII),
  and `String.prototype.includes` becomes an executable substring test.
* JavaScript numbers become `Int`: every arithmetic operation performed by the
  embedded code (`60 + count * 10`, `Math.min`) is exact on small integers, so
  no floating-point rounding can occur.
* `Date.now()` / `new Date().toISOString()` are modelled by an explicit clock
  parameter `now : Nat` threaded into each function that reads the clock; the
  `timestamp` field stores the clock value that the ISO string renders.
* A `fetch` that may fail is modelled by passing the backend's reply as an
  `Option`: `none` is a failed/timed-out request (the `catch` path),
  `some r` a successful JSON response `r`.
* `throw` becomes `Except.error`.
-/

/-- The `prediction` field: `'real' | 'fake' | 'inconclusive'`. -/
inductive Label where
  | real
  | fake
  | inconclusive
deriving DecidableEq, Repr

/-- The `impact` field of a factor: `'positive' | 'negative' | 'neutral'`. -/
inductive Impact where
  | positive
  | negative
  | neutral
deriving DecidableEq, Repr

/-- One entry of the `factors` array of a `PredictionResult`. -/
structure Factor where
  name : String
  score : Int
  impact : Impact
  description : String
deriving DecidableEq, Repr

/-- The `PredictionResult` interface of `src/services/api.ts` (the optional
`inputUrl`, `processingTime` and the ad-hoc `analysis_type` extras are not
read by any embedded code and are omitted). `timestamp` holds the clock value
whose ISO rendering the code stores. -/
structure PredictionResult where
  id : String
  prediction : Label
  confidence : Int
  explanation : String
  factors : List Factor
  sources : List String
  timestamp : Nat
  inputText : String
  modelVersion : String
deriving DecidableEq, Repr

/-- The JSON body returned by the backend `/predict` endpoint on the text
path: `{ prediction: string; confidence: number; explanation: string;
features: any }` (the unused `features` field is omitted). -/
structure BackendTextResponse where
  prediction : String
  confidence : Int
  explanation : String
deriving DecidableEq, Repr

/-- ASCII character lowering, the effect of `Char.toLowerCase` on the ASCII
constants compared by the code. -/
def lowerChar (c : Char) : Char :=
  if 65 ≤ c.toNat ∧ c.toNat ≤ 90 then Char.ofNat (c.toNat + 32) else c

/-- Rendering of `text.toLowerCase()` for ASCII text, character by
character. -/
def strToLower (s : String) : String :=
  ⟨s.data.map lowerChar⟩

/-- Does `pat` occur at the head of `s`? -/
def startsWithL : List Char → List Char → Bool
  | [], _ => true
  | _ :: _, [] => false
  | p :: ps, c :: cs => p == c && startsWithL ps cs

/-- Does `pat` occur anywhere in `s`? -/
def containsL (pat : List Char) : List Char → Bool
  | [] => startsWithL pat []
  | c :: cs => startsWithL pat (c :: cs) || containsL pat cs

/-- The JavaScript substring test `s.includes(pat)`. -/
def strIncludes (s pat : String) : Bool :=
  containsL pat.data s.data

/-- The `fakeIndicators` list of `createFallbackPrediction`. -/
def fakeIndicators : List String :=
  ["shocking", "unbelievable", "you won\x27t believe", "click here", "amazing",
   "secret"]

/-- The `realIndicators` list of `createFallbackPrediction`. -/
def realIndicators : List String :=
  ["according to", "study", "research", "university", "published"]

/-- Line 127 of `api.ts`:
`fakeIndicators.filter(word => lowerText.includes(word)).length`. -/
def fakeCount (text : String) : Nat :=
  (fakeIndicators.filter (fun w => strIncludes (strToLower text) w)).length

/-- Line 128 of `api.ts`:
`realIndicators.filter(word => lowerText.includes(word)).length`. -/
def realCount (text : String) : Nat :=
  (realIndicators.filter (fun w => strIncludes (strToLower text) w)).length

/-- Lines 121-136 of `api.ts`: the mutable `prediction`/`confidence` pair,
initialised to `('inconclusive', 60)` and reassigned by the two branches. -/
def fallbackDecision (fc rc : Nat) : Label × Int :=
  if fc > rc ∧ fc > 0 then
    (Label.fake, min 85 (60 + (fc : Int) * 10))
  else if rc > fc ∧ rc > 0 then
    (Label.real, min 85 (60 + (rc : Int) * 10))
  else
    (Label.inconclusive, 60)

/-- Lines 117-156 of `api.ts`: `createFallbackPrediction(text)`. -/
def createFallbackPrediction (now : Nat) (text : String) : PredictionResult :=
  let fc := fakeCount text
  let rc := realCount text
  let d := fallbackDecision fc rc
  let prediction := d.1
  let confidence := d.2
  { id := "fallback-" ++ toString now
    prediction := prediction
    confidence := confidence
    explanation := "This analysis uses a simple fallback system. " ++
      (if prediction = Label.fake then
        "The text contains language patterns often associated with misinformation."
      else if prediction = Label.real then
        "The text appears to follow standard journalistic patterns."
      else
        "The text shows mixed indicators and requires further verification.")
    factors := [{ name := "Pattern Analysis"
                  score := confidence
                  impact := if prediction = Label.fake then Impact.negative
                            else Impact.positive
                  description := "Simple keyword-based analysis (" ++
                    toString fc ++ " fake indicators, " ++ toString rc ++
                    " real indicators)" }]
    sources := ["https://www.snopes.com", "https://www.factcheck.org"]
    timestamp := now
    inputText := text
    modelVersion := "fallback-v1.0" }

/-- Lines 191-202 of `api.ts`: how a successful backend text response is
mapped into a `PredictionResult`. -/
def mapTextResponse (now : Nat) (text : String)
    (resp : BackendTextResponse) : PredictionResult :=
  { id := toString now
    prediction := if strToLower resp.prediction = "fake" then Label.fake
                  else Label.real
    confidence := resp.confidence
    explanation := resp.explanation
    factors := []
    sources := []
    timestamp := now
    inputText := text
    modelVersion := "lightweight-v1.0" }

/-- Lines 159-215 of `api.ts`: `predictFakeNews(text, url?)`.
The parameters `urlReply`/`textReply` carry the backend's answer on the respective endpoint,
`none` meaning the request failed (network error, timeout or non-2xx status),
which sends control to the `catch` block. -/
def predictFakeNews (now : Nat) (text : String) (url : Option String)
    (urlReply : Option PredictionResult)
    (textReply : Option BackendTextResponse) : Except String PredictionResult :=
  match url with
  | some _ =>
    match urlReply with
    | some r =>
      Except.ok { r with timestamp := if r.timestamp = 0 then now else r.timestamp }
    | none =>
      Except.error
        "URL analysis requires backend connection. Please check if the server is running."
  | none =>
    match textReply with
    | some resp => Except.ok (mapTextResponse now text resp)
    | none => Except.ok (createFallbackPrediction now text)

/-- Lines 101-108 of the main app component (`handleAnalyze`): the new result
is `unshift`ed onto the stored history and, when the history then exceeds 50
entries, `pop()` drops the last (oldest) one. -/
def updateHistory (history : List PredictionResult)
    (r : PredictionResult) : List PredictionResult :=
  let h := r :: history
  if h.length > 50 then h.dropLast else h

/-- The test input of Scenario A of the specification. -/
def scenarioA : String :=
  "SHOCKING! You won\x27t believe this amazing discovery! Click here!"

/-- Every field of a `PredictionResult` except `id` and `timestamp`, the two
fields derived from the clock. -/
def stableFields (r : PredictionResult) :
    Label × Int × String × List Factor × List String × String × String :=
  (r.prediction, r.confidence, r.explanation, r.factors, r.sources,
   r.inputText, r.modelVersion)

/-- A concrete prediction result, used to instantiate history statements. -/
def sampleResult : PredictionResult :=
  createFallbackPrediction 0 "sample"

/-! ## Helper lemmas about the fallback decision -/

theorem fallbackDecision_of_gt (fc rc : Nat) (h : fc > rc) :
    fallbackDecision fc rc = (Label.fake, min 85 (60 + (fc : Int) * 10)) := by
  unfold fallbackDecision
  rw [if_pos ⟨h, by omega⟩]

theorem fallbackDecision_of_lt (fc rc : Nat) (h : rc > fc) :
    fallbackDecision fc rc = (Label.real, min 85 (60 + (rc : Int) * 10)) := by
  unfold fallbackDecision
  rw [if_neg (by omega), if_pos ⟨h, by omega⟩]

theorem fallbackDecision_of_eq (fc rc : Nat) (h : fc = rc) :
    fallbackDecision fc rc = (Label.inconclusive, 60) := by
  unfold fallbackDecision
  rw [if_neg (by omega), if_neg (by omega)]

theorem fallbackDecision_label_iff (fc rc : Nat) :
    ((fallbackDecision fc rc).1 = Label.fake ↔ fc > rc) ∧
    ((fallbackDecision fc rc).1 = Label.real ↔ rc > fc) ∧
    ((fallbackDecision fc rc).1 = Label.inconclusive ↔ fc = rc) := by
  rcases Nat.lt_trichotomy fc rc with h | h | h
  · rw [fallbackDecision_of_lt fc rc h]
    refine ⟨?_, ?_, ?_⟩ <;> simp <;> omega
  · rw [fallbackDecision_of_eq fc rc h]
    refine ⟨?_, ?_, ?_⟩ <;> simp <;> omega
  · rw [fallbackDecision_of_gt fc rc h]
    refine ⟨?_, ?_, ?_⟩ <;> simp <;> omega

theorem fallbackDecision_conf_bounds (fc rc : Nat) :
    60 ≤ (fallbackDecision fc rc).2 ∧ (fallbackDecision fc rc).2 ≤ 85 := by
  rcases Nat.lt_trichotomy fc rc with h | h | h
  · rw [fallbackDecision_of_lt fc rc h]
    constructor <;> simp
  · rw [fallbackDecision_of_eq fc rc h]
    constructor <;> simp
  · rw [fallbackDecision_of_gt fc rc h]
    constructor <;> simp

theorem fallbackDecision_inconclusive_iff_60 (fc rc : Nat) :
    (fallbackDecision fc rc).1 = Label.inconclusive ↔
      (fallbackDecision fc rc).2 = 60 := by
  rcases Nat.lt_trichotomy fc rc with h | h | h
  · rw [fallbackDecision_of_lt fc rc h]
    simp
    omega
  · rw [fallbackDecision_of_eq fc rc h]
    simp
  · rw [fallbackDecision_of_gt fc rc h]
    simp
    omega

theorem fallbackDecision_conf_formula (fc rc : Nat) :
    (fallbackDecision fc rc).2 =
      if fc > rc then min 85 (60 + (fc : Int) * 10)
      else if rc > fc then min 85 (60 + (rc : Int) * 10)
      else 60 := by
  rcases Nat.lt_trichotomy fc rc with h | h | h
  · rw [fallbackDecision_of_lt fc rc h, if_neg (by omega), if_pos h]
  · rw [fallbackDecision_of_eq fc rc h, if_neg (by omega), if_neg (by omega)]
  · rw [fallbackDecision_of_gt fc rc h, if_pos h]

theorem createFallbackPrediction_prediction (now : Nat) (text : String) :
    (createFallbackPrediction now text).prediction =
      (fallbackDecision (fakeCount text) (realCount text)).1 := rfl

theorem createFallbackPrediction_confidence (now : Nat) (text : String) :
    (createFallbackPrediction now text).confidence =
      (fallbackDecision (fakeCount text) (realCount text)).2 := rfl

theorem updateHistory_def (history : List PredictionResult)
    (r : PredictionResult) :
    updateHistory history r =
      if (r :: history).length > 50 then (r :: history).dropLast
      else r :: history := rfl

/-! ## Claims -/

/-- C1, counterexample: on the empty input the fallback path returns the
label 'inconclusive' with confidence 60, which does not lie strictly between
the thresholds 40 and 60, so the claimed equivalence fails. -/
theorem c1_counterexample :
    (createFallbackPrediction 0 "").prediction = Label.inconclusive ∧
    ¬(40 < (createFallbackPrediction 0 "").confidence ∧
      (createFallbackPrediction 0 "").confidence < 60) := by decide

/-- C1, amended: in the fallback path the label is 'inconclusive' iff the
confidence is exactly 60 — the confidence never lies strictly between 40 and
60 — and the backend-mapped text path of `predictFakeNews` never returns the
label 'inconclusive' at all. -/
theorem c1_amended (now : Nat) (text : String) (resp : BackendTextResponse) :
    ((createFallbackPrediction now text).prediction = Label.inconclusive ↔
      (createFallbackPrediction now text).confidence = 60) ∧
    ¬(40 < (createFallbackPrediction now text).confidence ∧
      (createFallbackPrediction now text).confidence < 60) ∧
    (mapTextResponse now text resp).prediction ≠ Label.inconclusive := by
  refine ⟨?_, ?_, ?_⟩
  · rw [createFallbackPrediction_prediction, createFallbackPrediction_confidence]
    exact fallbackDecision_inconclusive_iff_60 _ _
  · rw [createFallbackPrediction_confidence]
    have hb := fallbackDecision_conf_bounds (fakeCount text) (realCount text)
    omega
  · unfold mapTextResponse
    dsimp only
    split <;> simp

/-- C2: the confidence returned by the fallback classifier always lies in the
closed interval from 0 to 100. -/
theorem c2_fallback_confidence_in_range (now : Nat) (text : String) :
    0 ≤ (createFallbackPrediction now text).confidence ∧
    (createFallbackPrediction now text).confidence ≤ 100 := by
  rw [createFallbackPrediction_confidence]
  have hb := fallbackDecision_conf_bounds (fakeCount text) (realCount text)
  omega

/-- C3, counterexample: the input "shocking" gets prediction 'fake' with
confidence 70; under the claimed scale a confidence of at least 60 would have
to yield 'real', and a 'fake' verdict would have to carry confidence at most
40. -/
theorem c3_counterexample :
    (createFallbackPrediction 0 "shocking").prediction = Label.fake ∧
    (createFallbackPrediction 0 "shocking").confidence = 70 ∧
    60 ≤ (createFallbackPrediction 0 "shocking").confidence := by decide

/-- C3, amended: the fallback selects the label by comparing indicator
counts, not by thresholding a confidence-the-text-is-real scale: the
prediction is 'fake' iff more fake than real indicators matched, 'real' iff
more real than fake ones matched, and 'inconclusive' iff the counts tie; the
confidence expresses confidence in the selected label. -/
theorem c3_amended (now : Nat) (text : String) :
    ((createFallbackPrediction now text).prediction = Label.fake ↔
      fakeCount text > realCount text) ∧
    ((createFallbackPrediction now text).prediction = Label.real ↔
      realCount text > fakeCount text) ∧
    ((createFallbackPrediction now text).prediction = Label.inconclusive ↔
      fakeCount text = realCount text) := by
  rw [createFallbackPrediction_prediction]
  exact fallbackDecision_label_iff _ _

/-- C4: when the backend request fails on the text path, the analysis still
returns a `PredictionResult` (no error is raised), namely the fallback
prediction, whose model-version field is the fallback tag. -/
theorem c4_fallback_on_backend_failure (now : Nat) (text : String) :
    predictFakeNews now text none none none =
      Except.ok (createFallbackPrediction now text) ∧
    (createFallbackPrediction now text).modelVersion = "fallback-v1.0" :=
  ⟨rfl, rfl⟩

/-- C5, counterexample: the fallback confidence is 60 on the empty input, so
it is not a probability-like value clamped to the interval from 0 to 1. -/
theorem c5_counterexample :
    (createFallbackPrediction 0 "").confidence = 60 ∧
    ¬((createFallbackPrediction 0 "").confidence ≤ 1) := by decide

/-- C5, amended: the fallback classifier counts matches of two fixed keyword
lists (no weighted feature sum), and its confidence is 60 on a tie and
otherwise 60 plus 10 per matched indicator of the winning list, capped at 85;
in particular it always lies in the interval from 60 to 85 on a 0-100 scale,
not in the interval from 0 to 1. -/
theorem c5_amended (now : Nat) (text : String) :
    (createFallbackPrediction now text).confidence =
      (if fakeCount text > realCount text then
        min 85 (60 + (fakeCount text : Int) * 10)
      else if realCount text > fakeCount text then
        min 85 (60 + (realCount text : Int) * 10)
      else 60) ∧
    60 ≤ (createFallbackPrediction now text).confidence ∧
    (createFallbackPrediction now text).confidence ≤ 85 := by
  rw [createFallbackPrediction_confidence]
  exact ⟨fallbackDecision_conf_formula _ _,
    (fallbackDecision_conf_bounds _ _).1, (fallbackDecision_conf_bounds _ _).2⟩

/-- C6, counterexample: two analyses of the same text at clock values 0 and 1
differ in the `id` field, which is not the `timestamp` field, so the results
are not byte-identical up to the timestamp alone. -/
theorem c6_counterexample :
    (createFallbackPrediction 0 "hello").id ≠
      (createFallbackPrediction 1 "hello").id := by decide

/-- C6, amended: the analysis is deterministic up to the two clock-derived
fields: two calls of `predictFakeNews` with identical text, URL argument and
backend replies agree on every field of the result except `id` and
`timestamp`. -/
theorem c6_amended (t1 t2 : Nat) (text : String) (url : Option String)
    (urlReply : Option PredictionResult)
    (textReply : Option BackendTextResponse) :
    (predictFakeNews t1 text url urlReply textReply).map stableFields =
      (predictFakeNews t2 text url urlReply textReply).map stableFields := by
  cases url
  · cases textReply <;> rfl
  · cases urlReply <;> rfl

/-- C7, counterexample: on the Scenario A input the fallback returns the
prediction 'fake', but with confidence 85, not a confidence of at most 40. -/
theorem c7_counterexample :
    (createFallbackPrediction 0 scenarioA).prediction = Label.fake ∧
    ¬((createFallbackPrediction 0 scenarioA).confidence ≤ 40) := by decide

/-- C7, amended: on the Scenario A input the fallback returns the prediction
'fake' with confidence 85 (four fake indicators match and the confidence
scale expresses confidence in the chosen label). -/
theorem c7_amended :
    (createFallbackPrediction 0 scenarioA).prediction = Label.fake ∧
    (createFallbackPrediction 0 scenarioA).confidence = 85 ∧
    fakeCount scenarioA = 4 := by decide

/-- C8, counterexample: on the empty input, with the backend request failing,
the analysis does not fail with any validation error — it returns the
fallback result, an 'inconclusive' prediction with confidence 60. -/
theorem c8_counterexample :
    predictFakeNews 0 "" none none none =
      Except.ok (createFallbackPrediction 0 "") ∧
    (createFallbackPrediction 0 "").prediction = Label.inconclusive ∧
    (createFallbackPrediction 0 "").confidence = 60 :=
  ⟨rfl, by decide, by decide⟩

/-- C8, amended: the analysis performs no minimum-length validation at all:
for every raw input, the empty string included, the text path of
`predictFakeNews` returns a `PredictionResult` (mapped from the backend reply
or, on failure, from the fallback) and never fails. -/
theorem c8_amended (now : Nat) (text : String)
    (textReply : Option BackendTextResponse) :
    ∃ r, predictFakeNews now text none none textReply = Except.ok r := by
  cases textReply <;> exact ⟨_, rfl⟩

/-- C9: the fallback confidence always lies in the interval from 60 to 85,
and it equals exactly 60 whenever the prediction is 'inconclusive'. -/
theorem c9_fallback_confidence_bounds (now : Nat) (text : String) :
    60 ≤ (createFallbackPrediction now text).confidence ∧
    (createFallbackPrediction now text).confidence ≤ 85 ∧
    ((createFallbackPrediction now text).prediction = Label.inconclusive →
      (createFallbackPrediction now text).confidence = 60) := by
  rw [createFallbackPrediction_prediction, createFallbackPrediction_confidence]
  have hb := fallbackDecision_conf_bounds (fakeCount text) (realCount text)
  have hi := fallbackDecision_inconclusive_iff_60 (fakeCount text) (realCount text)
  exact ⟨hb.1, hb.2, hi.mp⟩

/-- C9, witness: the inner implication is not vacuous — on the empty input
the prediction is 'inconclusive' and the confidence is exactly 60. -/
theorem c9_witness :
    (createFallbackPrediction 0 "").confidence = 60 :=
  (c9_fallback_confidence_bounds 0 "").2.2 (by decide)

/-- C10: after a successful analysis the new result sits at index 0 of the
stored history; a history of at most 50 entries still has at most 50 entries
afterwards, and when the cap is exceeded the oldest (last) entry is
dropped. -/
theorem c10_history_invariant (h : List PredictionResult)
    (r : PredictionResult) :
    (updateHistory h r).head? = some r ∧
    (h.length ≤ 50 → (updateHistory h r).length ≤ 50) ∧
    (50 < (r :: h).length → updateHistory h r = (r :: h).dropLast) := by
  rw [updateHistory_def]
  by_cases hc : 50 < (r :: h).length
  · rw [if_pos hc]
    refine ⟨?_, ?_, fun _ => rfl⟩
    · cases h with
      | nil => simp at hc
      | cons b t => rw [List.dropLast_cons₂]; rfl
    · intro h50
      rw [List.length_dropLast]
      simp only [List.length_cons]
      omega
  · rw [if_neg hc]
    simp only [List.length_cons] at hc
    refine ⟨rfl, ?_, ?_⟩
    · intro _
      simp only [List.length_cons]
      omega
    · intro h50
      simp only [List.length_cons] at h50
      omega

/-- C10, witness: with a stored history of exactly 50 entries the inner
implication applies — the updated history still has at most 50 entries. -/
theorem c10_witness :
    (updateHistory (List.replicate 50 sampleResult) sampleResult).length ≤ 50 :=
  (c10_history_invariant (List.replicate 50 sampleResult) sampleResult).2.1
    (by simp)
